import Mathlib

/-!
Verification of the answer-aggregation and orchestration pipeline of the
AgentMedicalExperiment repository (src/src/orchestrator.py, src/src/logger.py,
src/src/prompts.py, src/src/models.py) against its specification.

The Python code is shallowly embedded: every definition below mirrors a
concrete function of the source, with Python exceptions modelled by
`Except String` and Python values by explicit inductive types.  Machine
floats (processing times) never enter any computation that the claims
mention, so they are carried as opaque `Int` fields.
-/

/-! ## Python string primitives

Models of the CPython `str` operations used by `orchestrator.py`:
`str.lower`, `str.strip`, `str.replace`, substring membership (`in`),
and `str.startswith`.  All inputs in this development are ASCII except
the accent in the regex keyword "opción"; `pyLowerChar` therefore covers
ASCII plus that one letter, which is all that `str.lower` is applied to
by the claims below. -/

def pyLowerChar (c : Char) : Char :=
  if c = 'Ó' then 'ó' else c.toLower

def pyLower (s : String) : String :=
  String.mk (s.toList.map pyLowerChar)

def isPyWs (c : Char) : Bool :=
  c == ' ' || c == '\t' || c == '\n' || c == '\r' || c == '\x0b' || c == '\x0c'

def pyStripList (cs : List Char) : List Char :=
  ((cs.dropWhile isPyWs).reverse.dropWhile isPyWs).reverse

def pyStrip (s : String) : String :=
  String.mk (pyStripList s.toList)

def listContainsSub (sub : List Char) : List Char → Bool
  | [] => sub.isEmpty
  | cs@(_ :: t) => sub.isPrefixOf cs || listContainsSub sub t

def strContains (s sub : String) : Bool :=
  listContainsSub sub.toList s.toList

def pyStartsWith (s pre : String) : Bool :=
  pre.toList.isPrefixOf s.toList

def squote : Char := Char.ofNat 39

def isQuoteChar (c : Char) : Bool := c == '"' || c == squote

def isAbcd (c : Char) : Bool := c == 'a' || c == 'b' || c == 'c' || c == 'd'

def pyReplaceGo (old new : List Char) : Nat → List Char → List Char
  | 0, cs => cs
  | _ + 1, [] => []
  | fuel + 1, cs@(c :: rest) =>
    if old.isPrefixOf cs then new ++ pyReplaceGo old new fuel (cs.drop old.length)
    else c :: pyReplaceGo old new fuel rest

def pyReplace (s old new : String) : String :=
  String.mk (pyReplaceGo old.toList new.toList (s.toList.length + 1) s.toList)

/-! ## A model of Python json.loads

`orchestrator._parse_response` calls `json.loads` on the cleaned model
reply.  The grammar below follows the CPython `json` module: the four
JSON whitespace characters, double-quoted strings with the standard
escapes (including `\uXXXX` and surrogate pairs), strict rejection of
raw control characters, the JSON number grammar (a number is kept as its
lexeme: the pipeline never does arithmetic on parsed numbers, it only
distinguishes them from strings), the `NaN`/`Infinity` extensions CPython
accepts, objects with insertion-ordered members (a duplicated key keeps
the last value, as a Python dict does), and an "Extra data" error when
anything but whitespace follows the value. -/

inductive Json where
  | null : Json
  | bool (b : Bool) : Json
  | num (lexeme : String) : Json
  | str (s : String) : Json
  | arr (items : List Json) : Json
  | obj (members : List (String × Json)) : Json

def jsonWsChar (c : Char) : Bool :=
  c == ' ' || c == '\t' || c == '\n' || c == '\r'

def skipJsonWs (cs : List Char) : List Char :=
  cs.dropWhile jsonWsChar

def hexDigitVal (c : Char) : Option Nat :=
  if '0' ≤ c ∧ c ≤ '9' then some (c.toNat - '0'.toNat)
  else if 'a' ≤ c ∧ c ≤ 'f' then some (c.toNat - 'a'.toNat + 10)
  else if 'A' ≤ c ∧ c ≤ 'F' then some (c.toNat - 'A'.toNat + 10)
  else none

def jsonEscapeChar (c : Char) : Option Char :=
  if c = '"' then some '"'
  else if c = '\\' then some '\\'
  else if c = '/' then some '/'
  else if c = 'b' then some '\x08'
  else if c = 'f' then some '\x0c'
  else if c = 'n' then some '\n'
  else if c = 'r' then some '\r'
  else if c = 't' then some '\t'
  else none

/-- Scans a JSON string body (the opening quote already consumed).  A lone
surrogate, which a Lean `Char` cannot represent, is mapped to NUL; the
claims below never exercise that corner. -/
def jStringGo : Nat → List Char → List Char → Except String (String × List Char)
  | 0, _acc, _ => .error "Out of fuel"
  | _ + 1, _acc, [] => .error "Unterminated string"
  | _ + 1, acc, '"' :: rest => .ok (String.mk acc.reverse, rest)
  | fuel + 1, acc, '\\' :: 'u' :: h1 :: h2 :: h3 :: h4 :: rest =>
    match hexDigitVal h1, hexDigitVal h2, hexDigitVal h3, hexDigitVal h4 with
    | some a, some b, some c, some d =>
      let n := ((a * 16 + b) * 16 + c) * 16 + d
      if 0xD800 ≤ n ∧ n < 0xDC00 then
        match rest with
        | '\\' :: 'u' :: g1 :: g2 :: g3 :: g4 :: rest2 =>
          match hexDigitVal g1, hexDigitVal g2, hexDigitVal g3, hexDigitVal g4 with
          | some a2, some b2, some c2, some d2 =>
            let m := ((a2 * 16 + b2) * 16 + c2) * 16 + d2
            if 0xDC00 ≤ m ∧ m < 0xE000 then
              jStringGo fuel (Char.ofNat (0x10000 + (n - 0xD800) * 0x400 + (m - 0xDC00)) :: acc) rest2
            else
              jStringGo fuel (Char.ofNat m :: Char.ofNat n :: acc) rest2
          | _, _, _, _ => .error "Invalid hex escape"
        | _ => jStringGo fuel (Char.ofNat n :: acc) rest
      else
        jStringGo fuel (Char.ofNat n :: acc) rest
    | _, _, _, _ => .error "Invalid hex escape"
  | _ + 1, _acc, '\\' :: 'u' :: _ => .error "Invalid hex escape"
  | fuel + 1, acc, '\\' :: c :: rest =>
    match jsonEscapeChar c with
    | some e => jStringGo fuel (e :: acc) rest
    | none => .error "Invalid escape"
  | _ + 1, _acc, ['\\'] => .error "Unterminated string"
  | fuel + 1, acc, c :: rest =>
    if c.toNat < 0x20 then .error "Invalid control character"
    else jStringGo fuel (c :: acc) rest

def dropLit (lit : String) (cs : List Char) : Option (List Char) :=
  if lit.toList.isPrefixOf cs then some (cs.drop lit.toList.length) else none

/-- Integer part of the CPython JSON number regex: `0` or a nonzero digit
followed by digits.  Returns the consumed digits and the remainder. -/
def jIntDigits : List Char → Option (List Char × List Char)
  | [] => none
  | '0' :: r => some (['0'], r)
  | c :: r =>
    if '1' ≤ c ∧ c ≤ '9' then
      let p := r.span Char.isDigit
      some (c :: p.1, p.2)
    else none

/-- Optional fraction group of the number regex: a dot is consumed only
when at least one digit follows it. -/
def jFracDigits : List Char → (List Char × List Char)
  | '.' :: r =>
    let p := r.span Char.isDigit
    if p.1.isEmpty then ([], '.' :: r) else ('.' :: p.1, p.2)
  | cs => ([], cs)

/-- Optional exponent group of the number regex: an e or E with an optional
sign is consumed only when at least one digit follows. -/
def jExpDigits : List Char → (List Char × List Char)
  | [] => ([], [])
  | c :: r =>
    if c = 'e' ∨ c = 'E' then
      let sp : List Char × List Char :=
        match r with
        | s :: r2 => if s = '+' ∨ s = '-' then ([s], r2) else ([], s :: r2)
        | [] => ([], [])
      let p := sp.2.span Char.isDigit
      if p.1.isEmpty then ([], c :: r) else (c :: (sp.1 ++ p.1), p.2)
    else ([], c :: r)

def jNumber (cs : List Char) : Option (String × List Char) :=
  let sp : List Char × List Char :=
    match cs with
    | '-' :: r => (['-'], r)
    | _ => ([], cs)
  match jIntDigits sp.2 with
  | none => none
  | some (ids, cs2) =>
    let fp := jFracDigits cs2
    let ep := jExpDigits fp.2
    some (String.mk (sp.1 ++ ids ++ fp.1 ++ ep.1), ep.2)

/-- Parsing mode: a value, the members of an object (after its first key
position has been reached), or the items of an array. -/
inductive JMode where
  | value : JMode
  | members (acc : List (String × Json)) : JMode
  | items (acc : List Json) : JMode

def jParse : Nat → JMode → List Char → Except String (Json × List Char)
  | 0, _, _ => .error "Maximum recursion depth exceeded"
  | _ + 1, JMode.value, [] => .error "Expecting value"
  | fuel + 1, JMode.value, c :: rest =>
    if c = '"' then
      match jStringGo (rest.length + 1) [] rest with
      | .error e => .error e
      | .ok (s, r) => .ok (Json.str s, r)
    else if c = '{' then
      match skipJsonWs rest with
      | '}' :: r2 => .ok (Json.obj [], r2)
      | cs2 => jParse fuel (JMode.members []) cs2
    else if c = '[' then
      match skipJsonWs rest with
      | ']' :: r2 => .ok (Json.arr [], r2)
      | cs2 => jParse fuel (JMode.items []) cs2
    else
      match dropLit "null" (c :: rest) with
      | some r => .ok (Json.null, r)
      | none =>
        match dropLit "true" (c :: rest) with
        | some r => .ok (Json.bool true, r)
        | none =>
          match dropLit "false" (c :: rest) with
          | some r => .ok (Json.bool false, r)
          | none =>
            match jNumber (c :: rest) with
            | some (lexeme, r) => .ok (Json.num lexeme, r)
            | none =>
              match dropLit "NaN" (c :: rest) with
              | some r => .ok (Json.num "nan", r)
              | none =>
                match dropLit "Infinity" (c :: rest) with
                | some r => .ok (Json.num "inf", r)
                | none =>
                  match dropLit "-Infinity" (c :: rest) with
                  | some r => .ok (Json.num "-inf", r)
                  | none => .error "Expecting value"
  | fuel + 1, JMode.members acc, cs =>
    match cs with
    | '"' :: rest =>
      match jStringGo (rest.length + 1) [] rest with
      | .error e => .error e
      | .ok (k, r1) =>
        match skipJsonWs r1 with
        | ':' :: r2 =>
          match jParse fuel JMode.value (skipJsonWs r2) with
          | .error e => .error e
          | .ok (v, r3) =>
            match skipJsonWs r3 with
            | ',' :: r4 => jParse fuel (JMode.members (acc ++ [(k, v)])) (skipJsonWs r4)
            | '}' :: r4 => .ok (Json.obj (acc ++ [(k, v)]), r4)
            | _ => .error "Expecting comma delimiter"
        | _ => .error "Expecting colon delimiter"
    | _ => .error "Expecting property name enclosed in double quotes"
  | fuel + 1, JMode.items acc, cs =>
    match jParse fuel JMode.value cs with
    | .error e => .error e
    | .ok (v, r1) =>
      match skipJsonWs r1 with
      | ',' :: r2 => jParse fuel (JMode.items (acc ++ [v])) (skipJsonWs r2)
      | ']' :: r2 => .ok (Json.arr (acc ++ [v]), r2)
      | _ => .error "Expecting comma delimiter"

/-- Model of `json.loads` restricted to decode errors: a `.error` result
corresponds exactly to a `json.JSONDecodeError` in Python. -/
def jsonLoads (s : String) : Except String Json :=
  match jParse (2 * s.toList.length + 4) JMode.value (skipJsonWs s.toList) with
  | .error e => .error e
  | .ok (v, rest) => if skipJsonWs rest = [] then .ok v else .error "Extra data"

/-! ## Python operations on the parsed JSON value

`_parse_response` runs `key in data` and `data[key]` on the result of
`json.loads`.  Both are partial in Python: membership raises `TypeError`
on numbers, booleans and `None`; subscripting with a string raises
`TypeError` on strings and lists.  A Python dict built by `json.loads`
answers membership over all inserted keys and subscripting with the last
value inserted for the key. -/

def objHasKey (members : List (String × Json)) (key : String) : Bool :=
  members.any (fun kv => kv.1 == key)

def objGetLast (members : List (String × Json)) (key : String) : Option Json :=
  (members.reverse.find? (fun kv => kv.1 == key)).map (fun kv => kv.2)

def jsonNumTypeName (lexeme : String) : String :=
  if strContains lexeme "." || strContains lexeme "e" || strContains lexeme "E"
     || lexeme == "nan" || lexeme == "inf" || lexeme == "-inf"
  then "float" else "int"

def pyContains (data : Json) (key : String) : Except String Bool :=
  match data with
  | Json.obj members => .ok (objHasKey members key)
  | Json.arr items =>
    .ok (items.any (fun j => match j with | Json.str s => s == key | _ => false))
  | Json.str s => .ok (listContainsSub key.toList s.toList)
  | Json.num lexeme =>
    .error ("TypeError: argument of type " ++ jsonNumTypeName lexeme ++ " is not iterable")
  | Json.bool _ => .error "TypeError: argument of type bool is not iterable"
  | Json.null => .error "TypeError: argument of type NoneType is not iterable"

def pySubscript (data : Json) (key : String) : Except String Json :=
  match data with
  | Json.obj members =>
    match objGetLast members key with
    | some v => .ok v
    | none => .error ("KeyError: " ++ key)
  | Json.str _ => .error "TypeError: string indices must be integers"
  | Json.arr _ => .error "TypeError: list indices must be integers or slices, not str"
  | _ => .error "TypeError: value is not subscriptable"

/-- Model of the key-search loop of `_parse_response` (orchestrator.py
lines 86-96): walk the candidate keys in order; the first one for which
`key in data` holds is subscripted and ends the loop.  Exceptions from
either operation propagate. -/
def pyFindKey (data : Json) : List String → Except String (Option Json)
  | [] => .ok none
  | k :: ks =>
    match pyContains data k with
    | .error e => .error e
    | .ok true =>
      match pySubscript data k with
      | .error e => .error e
      | .ok v => .ok (some v)
    | .ok false => pyFindKey data ks

/-- The exact-case candidate answer keys of orchestrator.py line 85. -/
def answerKeys : List String :=
  ["respuesta", "Respuesta", "response", "Response", "answer", "Answer"]

/-- The exact-case candidate justification keys of orchestrator.py line 92. -/
def justificationKeys : List String :=
  ["justificacion", "Justificacion", "justification", "Justification",
   "reasoning", "Reasoning"]

/-- Post-processing of a truthy string answer found in the JSON object
(orchestrator.py lines 100-103): strip, lower, and truncate to the first
character when the string is longer than one character and starts with a
canonical letter; otherwise the value is returned unchanged. -/
def normalizeAnswer (a : String) : String :=
  match (pyLower (pyStrip a)).toList with
  | c :: _ :: _ =>
    if isAbcd c then String.singleton c else pyLower (pyStrip a)
  | _ => pyLower (pyStrip a)

/-! ## The text-pattern search of `_parse_response`

Lines 111-137 of orchestrator.py run seven regular expressions, in
order, over the lowercased raw response, then fall back to scanning for
the first letter a-d.  Each pattern is implemented here as a dedicated
matcher tried at every position from the left (the semantics of
`re.search` for these patterns: their character classes are disjoint, so
the greedy and optional parts are deterministic). -/

/-- After a matched keyword: the regex tail `\s*["\x27]?([a-d])` (skip
whitespace, at most one optional quote, then the captured letter). -/
def letterAfterWs (cs : List Char) : Option Char :=
  let cs1 := cs.dropWhile isPyWs
  let cs2 := match cs1 with
    | c :: r => if isQuoteChar c then r else c :: r
    | [] => []
  match cs2 with
  | c :: _ => if isAbcd c then some c else none
  | [] => none

/-- Matcher for the patterns `(?:kw1|kw2):\s*["\x27]?([a-d])["\x27]?` at one
position (patterns 1-3 of orchestrator.py lines 116-118). -/
def matchKeyColonAt (kws : List (List Char)) (cs : List Char) : Option Char :=
  kws.findSome? (fun kw =>
    match dropLitList (kw ++ [':']) cs with
    | some rest => letterAfterWs rest
    | none => none)
where
  dropLitList (lit cs : List Char) : Option (List Char) :=
    if lit.isPrefixOf cs then some (cs.drop lit.length) else none

/-- Matcher for the patterns `["\x27](?:kw1|kw2)["\x27]:\s*["\x27]([a-d])["\x27]`
at one position (patterns 4-5 of orchestrator.py lines 119-120); here the
quotes around the letter are mandatory. -/
def matchQuotedKeyAt (kws : List (List Char)) (cs : List Char) : Option Char :=
  match cs with
  | q :: rest =>
    if isQuoteChar q then
      kws.findSome? (fun kw =>
        if kw.isPrefixOf rest then
          match rest.drop kw.length with
          | q2 :: ':' :: r3 =>
            if isQuoteChar q2 then
              match (r3.dropWhile isPyWs) with
              | q3 :: c :: q4 :: _ =>
                if isQuoteChar q3 && isAbcd c && isQuoteChar q4 then some c else none
              | _ => none
            else none
          | _ => none
        else none)
    else none
  | [] => none

/-- Matcher for the patterns `(?:phrase1|phrase2)\s+["\x27]?([a-d])["\x27]?`
at one position (patterns 6-7 of orchestrator.py lines 121-122); at least
one whitespace character is required after the phrase. -/
def matchPhraseAt (phrases : List (List Char)) (cs : List Char) : Option Char :=
  phrases.findSome? (fun ph =>
    if ph.isPrefixOf cs then
      match cs.drop ph.length with
      | c :: r2 => if isPyWs c then letterAfterWs r2 else none
      | [] => none
    else none)

/-- Leftmost-match search: try the matcher at every position from the
left, like `re.search`. -/
def searchFrom (m : List Char → Option Char) : List Char → Option Char
  | [] => m []
  | cs@(_ :: t) =>
    match m cs with
    | some c => some c
    | none => searchFrom m t

def answerPatterns : List (List Char → Option Char) :=
  [matchKeyColonAt ["respuesta".toList, "answer".toList],
   matchKeyColonAt ["opción".toList, "option".toList],
   matchKeyColonAt ["alternativa".toList, "alternative".toList],
   matchQuotedKeyAt ["respuesta".toList, "answer".toList],
   matchQuotedKeyAt ["opción".toList, "option".toList],
   matchPhraseAt ["la respuesta correcta es".toList, "the correct answer is".toList],
   matchPhraseAt ["elijo".toList, "i choose".toList]]

/-- The pattern loop of orchestrator.py lines 126-128: each pattern is
searched over the whole text and the first pattern with a match wins. -/
def findFirstPattern (cs : List Char) : Option Char :=
  answerPatterns.findSome? (fun m => searchFrom m cs)

/-- Lazy capture of the justification regex
`(?:justificacion|justification|reasoning):\s*["\x27]?(.*?)["\x27]?(?:\}|\n|$)`
(orchestrator.py line 130): the shortest capture after which an optional
quote and then a closing brace, a newline, or the end of the string
matches. -/
def lazyJustCapture : List Char → List Char
  | [] => []
  | c :: rest =>
    if c = '}' ∨ c = '\n' then []
    else if isQuoteChar c &&
            (match rest with
             | [] => true
             | d :: _ => d == '}' || d == '\n')
    then []
    else c :: lazyJustCapture rest

def justMatchAt (cs : List Char) : Option (List Char) :=
  ["justificacion".toList, "justification".toList, "reasoning".toList].findSome?
    (fun kw =>
      if (kw ++ [':']).isPrefixOf cs then
        let r1 := (cs.drop (kw.length + 1)).dropWhile isPyWs
        let r2 := match r1 with
          | c :: r => if isQuoteChar c then r else c :: r
          | [] => []
        some (lazyJustCapture r2)
      else none)

def justSearchFrom : List Char → Option (List Char)
  | [] => justMatchAt []
  | cs@(_ :: t) =>
    match justMatchAt cs with
    | some cap => some cap
    | none => justSearchFrom t

/-- The plain-text part of `_parse_response` (orchestrator.py lines
110-140): pattern search over the lowercased response, justification
capture, then the first-letter scan, then the empty fallback. -/
def textSearch (response : String) : String × Json :=
  let lower := (pyLower response).toList
  match findFirstPattern lower with
  | some c =>
    let just := match justSearchFrom lower with
      | some cap => String.mk (pyStripList cap)
      | none => ""
    (String.singleton c, Json.str just)
  | none =>
    match lower.find? isAbcd with
    | some c => (String.singleton c, Json.str "")
    | none => ("", Json.str "")

/-- The code-fence cleaning of orchestrator.py lines 69-73. -/
def cleanResponse (response : String) : String :=
  if strContains response "```json" then
    pyStrip (pyReplace (pyReplace response "```json" "") "```" "")
  else if strContains response "```" then
    pyStrip (pyReplace response "```" "")
  else response

/-- Model of `ModelEnsemble._parse_response` (orchestrator.py lines
54-140).  The returned pair is (alternative, justification); the
justification may be any JSON value because line 95 stores `data[key]`
unchecked.  A `.error` result models a Python exception escaping the
function: only `json.JSONDecodeError` is caught (line 106), so the
`TypeError`s of `pyFindKey` propagate. -/
def parseResponse (response : String) : Except String (String × Json) :=
  if response = "" ∨ pyStartsWith response "Error:" = true then .ok ("", Json.str "")
  else
    match jsonLoads (cleanResponse response) with
    | .error _ => .ok (textSearch response)
    | .ok data =>
      match pyFindKey data answerKeys with
      | .error e => .error e
      | .ok answerFound =>
        match pyFindKey data justificationKeys with
        | .error e => .error e
        | .ok justFound =>
          match answerFound with
          | some (Json.str a) =>
            if a = "" then .ok (textSearch response)
            else .ok (normalizeAnswer a, justFound.getD (Json.str ""))
          | _ => .ok (textSearch response)

/-! ## Advisor fan-out

`ModelEnsemble._query_advisors_parallel` (orchestrator.py lines 174-211)
submits one task per configured advisor to a thread pool and collects
every future, converting an exception from a task into a fixed error
entry.  The observable result is a mapping read back by name, so the
embedding keeps the configured order; a task is an opaque function that
either yields an advisor reply or raises (`.error`), covering backend
failures surfaced by `AdvisorModel.query_model` as well as exceptions
escaping `_query_advisor` itself (for instance a `TypeError` from
`_parse_response`).  `ThreadPoolExecutor` is created with
`max_workers=len(advisors)` (line 189), which raises `ValueError` when
the advisor mapping is empty. -/

structure AdvisorReply where
  raw_response : String
  parsed_answer : String
  reasoning : Json
  processing_time : Int
  error : Bool

structure BackendResult where
  raw_response : String
  processing_time : Int
  error : Bool

/-- Model of `ModelEnsemble._query_advisor` (orchestrator.py lines
142-172) applied to the outcome of `advisor.query_model`: parse the raw
response (which may raise) and assemble the reply record. -/
def queryAdvisor (res : BackendResult) : Except String AdvisorReply :=
  match parseResponse res.raw_response with
  | .error e => .error e
  | .ok (ans, reas) =>
    .ok { raw_response := res.raw_response, parsed_answer := ans,
          reasoning := reas, processing_time := res.processing_time,
          error := res.error }

/-- The error entry of orchestrator.py lines 203-209. -/
def errorReply (msg : String) : AdvisorReply :=
  { raw_response := "Error: " ++ msg, parsed_answer := "",
    reasoning := Json.str "", processing_time := 0, error := true }

/-- Model of `ModelEnsemble._query_advisors_parallel` (orchestrator.py
lines 174-211).  The result dict is populated in the order
`concurrent.futures.as_completed` yields the futures (lines 197-209),
which is scheduling-dependent; that nondeterminism is exposed as the
`completionOrder` argument, an arbitrary permutation of the configured
advisors (every submitted future is yielded exactly once).  Only the
key set of the result is therefore program-determined, not the entry
order. -/
def queryAdvisorsParallel (advisors completionOrder : List String)
    (task : String → Except String AdvisorReply) :
    Except String (List (String × AdvisorReply)) :=
  if advisors.isEmpty then
    .error "ValueError: max_workers must be greater than 0"
  else
    .ok (completionOrder.map (fun name =>
      (name,
       match task name with
       | .ok r => r
       | .error e => errorReply e)))

/-! ## Decision arbiter

`ModelEnsemble._query_decision_model` (orchestrator.py lines 213-253)
reads the raw responses of the three fixed advisor names claude, grok
and deepseek from the reply mapping (with the literal default
`"Error al obtener respuesta"` when an entry is missing) and substitutes
them, together with the question, into the decision template
(`PromptManager.get_decision_prompt`, prompts.py lines 37-56, a chain of
`str.replace` calls in a fixed order). -/

def lookupReply (replies : List (String × AdvisorReply)) (name : String) :
    Option AdvisorReply :=
  (replies.find? (fun p => p.1 == name)).map (fun p => p.2)

def decisionPlaceholder : String := "Error al obtener respuesta"

/-- The `advisor_responses.get(name, {}).get("raw_response", default)`
reads of orchestrator.py lines 226-228. -/
def advisorRawOrPlaceholder (replies : List (String × AdvisorReply))
    (name : String) : String :=
  match lookupReply replies name with
  | some r => r.raw_response
  | none => decisionPlaceholder

/-- Model of `PromptManager.get_decision_prompt` (prompts.py lines
37-56): sequential replacement of the four named slots. -/
def getDecisionPrompt (template question claudeR grokR deepseekR : String) :
    String :=
  pyReplace
    (pyReplace
      (pyReplace
        (pyReplace template "\x7bquestion\x7d" question)
        "\x7bclaude_response\x7d" claudeR)
      "\x7bgrok_response\x7d" grokR)
    "\x7bdeepseek_response\x7d" deepseekR

/-- The prompt construction step of `_query_decision_model`
(orchestrator.py lines 225-236). -/
def queryDecisionPrompt (template question : String)
    (replies : List (String × AdvisorReply)) : String :=
  getDecisionPrompt template question
    (advisorRawOrPlaceholder replies "claude")
    (advisorRawOrPlaceholder replies "grok")
    (advisorRawOrPlaceholder replies "deepseek")

/-- Modelled from the spec: the decision prompt template itself lives in
configs/config.yaml, which is not part of the provided sources; the spec
requires it to expose "named slots for the question and for each
advisor's raw response" with stable advisor-name ordering.  This
concrete representative template has exactly those four slots. -/
def decisionTemplateModel : String :=
  "Pregunta: \x7bquestion\x7d\nRespuesta de Claude: \x7bclaude_response\x7d\nRespuesta de Grok: \x7bgrok_response\x7d\nRespuesta de DeepSeek: \x7bdeepseek_response\x7d\nDa tu veredicto final."

/-- The correctness check of `ModelEnsemble.process_question`: line 268
lowercases the dataset answer and line 289 compares
`decision["final_answer"].lower() == correct_answer.lower()`. -/
def processIsCorrect (finalAnswer rawCorrect : String) : Bool :=
  pyLower finalAnswer == pyLower (pyLower rawCorrect)

/-! ## Consensus analysis

`Logger._analyze_consensus` (logger.py lines 172-214) classifies each
result by the highest multiplicity among the lowercased advisor parsed
answers: multiplicity 3 is logged as full agreement, 2 as partial
agreement, anything else as no agreement.  `most_common(1)[0]` raises
`IndexError` on an empty answer list. -/

def maxAnswerCount (answers : List String) : Nat :=
  (answers.map (fun a => answers.count a)).foldr max 0

def consensusFullLabel : String := "Acuerdo total (3/3)"

def consensusPartLabel : String := "Acuerdo parcial (2/3)"

def consensusNoneLabel : String := "Sin acuerdo (0/3)"

/-- Model of the per-result classification inside
`Logger._analyze_consensus` (logger.py lines 185-201). -/
def analyzeConsensusLevel (answers : List String) : Except String String :=
  let lowered := answers.map pyLower
  match lowered with
  | [] => .error "IndexError: list index out of range"
  | _ =>
    let mc := maxAnswerCount lowered
    .ok (if mc = 3 then consensusFullLabel
         else if mc = 2 then consensusPartLabel
         else consensusNoneLabel)

/-! ## Run selection

`ModelEnsemble.run` (orchestrator.py lines 320-329): the sample
truncation `if sample_size and sample_size < len(df): df = df.iloc[:sample_size]`
runs before the resume filter `df = df[df.index >= resume_from]`.  A
question's identity is its dataframe index (`row.name`).  Note the
Python truthiness test: `sample_size` equal to `0` (or `None`) disables
the truncation. -/

structure Question where
  id : Int
  text : String
deriving DecidableEq

/-- Python slice `l[:k]` for an integer bound, including the negative
case. -/
def pySliceTo (k : Int) (l : List Question) : List Question :=
  if 0 ≤ k then l.take k.toNat else l.take ((l.length : Int) + k).toNat

/-- The truncation block of orchestrator.py lines 324-325:
`if sample_size and sample_size < len(df): df = df.iloc[:sample_size]`. -/
def sampleStage (qs : List Question) : Option Int → List Question
  | none => qs
  | some ss => if ss ≠ 0 ∧ ss < (qs.length : Int) then pySliceTo ss qs else qs

/-- The resume block of orchestrator.py lines 328-329:
`if resume_from is not None: df = df[df.index >= resume_from]`. -/
def resumeStage (qs : List Question) : Option Int → List Question
  | none => qs
  | some r => qs.filter (fun q => r ≤ q.id)

/-- Model of the question-selection policy of `ModelEnsemble.run`
(orchestrator.py lines 320-329): truncation first, then the resume
filter. -/
def runSelect (qs : List Question) (sampleSize : Option Int)
    (resumeFrom : Option Int) : List Question :=
  resumeStage (sampleStage qs sampleSize) resumeFrom

/-! ## Concrete records used by the theorems below -/

/-- A successful advisor reply used as a concrete fan-out outcome. -/
def sampleReply : AdvisorReply :=
  { raw_response := "\x7b\"Respuesta\": \"a\"\x7d", parsed_answer := "a",
    reasoning := Json.str "", processing_time := 2, error := false }

/-- A concrete fan-out task mapping: the grok backend raises, the others
succeed. -/
def claim3Task : String → Except String AdvisorReply :=
  fun n => if n = "grok" then Except.error "timeout" else Except.ok sampleReply

/-- The reply list that `claim3Task` produces for the three configured
advisors when they complete in the order deepseek, grok, claude. -/
def claim3Entries : List (String × AdvisorReply) :=
  [("deepseek", sampleReply), ("grok", errorReply "timeout"),
   ("claude", sampleReply)]

/-- An advisor reply with a chosen raw text and no failure. -/
def mkReply (raw : String) : AdvisorReply :=
  { raw_response := raw, parsed_answer := "", reasoning := Json.str "",
    processing_time := 0, error := false }

/-- A reply mapping with all three fixed advisors present. -/
def presentReplies : List (String × AdvisorReply) :=
  [("claude", mkReply "RespClaude"), ("grok", mkReply "RespGrok"),
   ("deepseek", mkReply "RespDeepSeek")]

/-- A reply mapping in which the deepseek entry is missing. -/
def missingDeepReplies : List (String × AdvisorReply) :=
  [("claude", mkReply "RespClaude"), ("grok", mkReply "RespGrok")]

/-- A reply mapping in which the claude entry failed (its raw text is the
error text produced by the fan-out, not the placeholder). -/
def failedClaudeReplies : List (String × AdvisorReply) :=
  [("claude", errorReply "timeout"), ("grok", mkReply "RespGrok"),
   ("deepseek", mkReply "RespDeepSeek")]

/-- A question with a given identity. -/
def qn (i : Int) : Question := { id := i, text := "q" }

/-! ## Shared lemmas about the Answer Extractor -/

/-- When the cleaned text parses as JSON and a truthy string answer is
found by the key loop, `_parse_response` returns the normalized answer
and the found justification, consulting neither the regex patterns nor
the character scan. -/
theorem parseResponse_structured (s : String) (data : Json) (a : String)
    (jopt : Option Json)
    (hne : s ≠ "") (herr : pyStartsWith s "Error:" = false)
    (hjson : jsonLoads (cleanResponse s) = Except.ok data)
    (hans : pyFindKey data answerKeys = Except.ok (some (Json.str a)))
    (hjust : pyFindKey data justificationKeys = Except.ok jopt)
    (ha : a ≠ "") :
    parseResponse s = Except.ok (normalizeAnswer a, jopt.getD (Json.str "")) := by
  have hcond : ¬ (s = "" ∨ pyStartsWith s "Error:" = true) := by
    rintro (h | h)
    · exact hne h
    · rw [herr] at h
      exact Bool.false_ne_true h
  unfold parseResponse
  rw [if_neg hcond, hjson]
  simp only [hans, hjust]
  simp [ha]

/-- When the cleaned text fails to parse as JSON, `_parse_response`
continues with the plain-text search on the original response. -/
theorem parseResponse_textfallback (s : String) (e : String)
    (hne : s ≠ "") (herr : pyStartsWith s "Error:" = false)
    (hjson : jsonLoads (cleanResponse s) = Except.error e) :
    parseResponse s = Except.ok (textSearch s) := by
  have hcond : ¬ (s = "" ∨ pyStartsWith s "Error:" = true) := by
    rintro (h | h)
    · exact hne h
    · rw [herr] at h
      exact Bool.false_ne_true h
  unfold parseResponse
  rw [if_neg hcond, hjson]

/-- When one of the seven answer patterns matches, the plain-text search
returns that capture and never reaches the character scan. -/
theorem textSearch_pattern (s : String) (c : Char)
    (hpat : findFirstPattern (pyLower s).toList = some c) :
    ∃ j, textSearch s = (String.singleton c, Json.str j) := by
  simp only [textSearch, hpat]
  exact ⟨_, rfl⟩

/-! ## Claim C9 -/

/-- C9: the spec claims the Answer Extractor terminates normally on every
input string, including strings that parse as JSON scalars such as
numbers or null, and never raises.  The code violates this: on input "3"
the structured branch evaluates the Python expression
(respuesta in 3), and the resulting TypeError is not caught by the
except clause of orchestrator.py line 106, which names only
json.JSONDecodeError.  This theorem evaluates the embedded extractor at
the failing inputs "3" and "null". -/
theorem claim9_extractor_raises :
    parseResponse "3" = Except.error "TypeError: argument of type int is not iterable"
    ∧ parseResponse "null" = Except.error "TypeError: argument of type NoneType is not iterable" :=
  ⟨rfl, rfl⟩

/-! ## Claim C1 -/

/-- C1 counterexample: the claim states that a JSON object storing the
answer under any accepted key synonym (respuesta, answer, opcion,
option, alternativa) in any letter case yields the stored letter.  For
the raw text consisting of the JSON object with key opcion and value
"b", the key loop of orchestrator.py line 85 (which checks only the six
exact-case keys respuesta/Respuesta/response/Response/answer/Answer)
finds nothing, no regex pattern matches the unaccented key opcion, and
the character scan returns "c" (the first canonical letter inside the
word opcion) instead of "b". -/
theorem claim1_counterexample :
    parseResponse "\x7b\"opcion\": \"b\"\x7d" = Except.ok ("c", Json.str "")
    ∧ ("c" : String) ≠ "b" :=
  ⟨rfl, by decide⟩

/-- C1 (amended): the structured branch of the Answer Extractor searches
the parsed JSON object by exact, case-sensitive membership against the
ordered key list respuesta, Respuesta, response, Response, answer,
Answer and returns the (normalized) value of the first key present;
key synonyms opcion and alternativa are not part of the structured
search (some other-case variants, such as RESPUESTA or quoted option,
are recovered only by the lower-priority regex fallback, and the JSON
object with key opcion and value "b" yields "c" via the character
scan). -/
theorem claim1_json_key_search :
    (∀ (s : String) (data : Json) (a : String) (jopt : Option Json),
      s ≠ "" → pyStartsWith s "Error:" = false →
      jsonLoads (cleanResponse s) = Except.ok data →
      pyFindKey data answerKeys = Except.ok (some (Json.str a)) →
      pyFindKey data justificationKeys = Except.ok jopt →
      a ≠ "" →
      parseResponse s = Except.ok (normalizeAnswer a, jopt.getD (Json.str "")))
    ∧ parseResponse "\x7b\"Respuesta\": \"a\"\x7d" = Except.ok ("a", Json.str "")
    ∧ parseResponse "\x7b\"answer\": \"a\"\x7d" = Except.ok ("a", Json.str "")
    ∧ parseResponse "\x7b\"RESPUESTA\": \"a\"\x7d" = Except.ok ("a", Json.str "")
    ∧ parseResponse "\x7b\"opcion\": \"b\"\x7d" = Except.ok ("c", Json.str "") :=
  ⟨parseResponse_structured, rfl, rfl, rfl, rfl⟩

/-- C1 witness: the key-search conjunct of `claim1_json_key_search`
applied at the raw text consisting of the JSON object mapping respuesta
to "b". -/
theorem claim1_witness :
    parseResponse "\x7b\"respuesta\": \"b\"\x7d" = Except.ok ("b", Json.str "") :=
  claim1_json_key_search.1 "\x7b\"respuesta\": \"b\"\x7d"
    (Json.obj [("respuesta", Json.str "b")]) "b" none
    (by decide) rfl rfl rfl rfl (by decide)

/-! ## Claim C7 -/

/-- C7 counterexample: the claim states that a JSON answer value longer
than one character whose first character is outside the canonical
alphabet is re-searched with the text patterns and, being outside the
alphabet, treated as unparsed (the empty string).  The code instead
returns the stripped lowercased value unchanged: for the JSON object
mapping respuesta to "ex" the extractor returns "ex" (line 104 of
orchestrator.py returns the whole value when the truncation guard of
line 102 fails), not "" as the claim requires (the text patterns find
nothing in "ex", as the last conjunct shows). -/
theorem claim7_counterexample :
    parseResponse "\x7b\"respuesta\": \"ex\"\x7d" = Except.ok ("ex", Json.str "")
    ∧ ("ex" : String) ≠ ""
    ∧ findFirstPattern (pyLower "ex").toList = none :=
  ⟨rfl, by decide, rfl⟩

/-- C7 (amended): for a JSON-parsed truthy string answer value, the
extractor strips and lowercases it; when the result is longer than one
character and its first character is in the canonical alphabet
a, b, c, d, the value is truncated to that first character; otherwise
the stripped lowercased value is returned unchanged — there is no
re-run of the text-pattern search and no emptying of answers outside
the canonical alphabet. -/
theorem claim7_answer_truncation :
    (∀ (a : String) (c d : Char) (rest : List Char),
      (pyLower (pyStrip a)).toList = c :: d :: rest →
      isAbcd c = true → normalizeAnswer a = String.singleton c)
    ∧ (∀ (a : String) (c d : Char) (rest : List Char),
      (pyLower (pyStrip a)).toList = c :: d :: rest →
      isAbcd c = false → normalizeAnswer a = pyLower (pyStrip a))
    ∧ (∀ (a : String) (c : Char),
      (pyLower (pyStrip a)).toList = [c] →
      normalizeAnswer a = pyLower (pyStrip a))
    ∧ (∀ (s : String) (data : Json) (a : String) (jopt : Option Json),
      s ≠ "" → pyStartsWith s "Error:" = false →
      jsonLoads (cleanResponse s) = Except.ok data →
      pyFindKey data answerKeys = Except.ok (some (Json.str a)) →
      pyFindKey data justificationKeys = Except.ok jopt →
      a ≠ "" →
      parseResponse s = Except.ok (normalizeAnswer a, jopt.getD (Json.str "")))
    ∧ parseResponse "\x7b\"respuesta\": \"a) porque si\"\x7d" = Except.ok ("a", Json.str "")
    ∧ parseResponse "\x7b\"respuesta\": \"ex\"\x7d" = Except.ok ("ex", Json.str "") := by
  refine ⟨?_, ?_, ?_, parseResponse_structured, rfl, rfl⟩
  · intro a c d rest h hc
    unfold normalizeAnswer
    rw [h]
    simp [hc]
  · intro a c d rest h hc
    unfold normalizeAnswer
    rw [h]
    simp [hc]
  · intro a c h
    unfold normalizeAnswer
    rw [h]

/-- C7 witness: the truncation conjunct of `claim7_answer_truncation`
applied to the value "a) porque si", and the unchanged-value conjunct
applied to the value "ex". -/
theorem claim7_witness :
    normalizeAnswer "a) porque si" = String.singleton 'a'
    ∧ normalizeAnswer "ex" = pyLower (pyStrip "ex") :=
  ⟨claim7_answer_truncation.1 "a) porque si" 'a' ')'
      " porque si".toList rfl rfl,
   claim7_answer_truncation.2.1 "ex" 'e' 'x' [] rfl rfl⟩

/-! ## Claim C2 -/

/-- C2 counterexample: the claim states that for any text containing an
extraneous canonical letter in prose before a structured answer field
with value "a" the extractor returns "a".  When prose precedes the
field, the whole text is not valid JSON, so the structured branch never
runs and the regex patterns decide; prose that itself matches a
higher-priority pattern wins: for the text beginning "Mi respuesta: b."
followed by a JSON answer field with value "a", pattern 1 of
orchestrator.py line 116 captures "b" before the quoted-key pattern of
line 119 is ever tried, so the extractor returns "b", not "a". -/
theorem claim2_counterexample :
    parseResponse "Mi respuesta: b. \x7b\"answer\": \"a\"\x7d" = Except.ok ("b", Json.str "")
    ∧ ("b" : String) ≠ "a" :=
  ⟨rfl, by decide⟩

/-- C2 (amended): the extractor applies a strict precedence — a
successfully parsed structured (JSON) answer wins over the text-pattern
search, and a text-pattern match wins over the first-letter scan.  A
prose prefix makes the whole text invalid JSON, so for prose before a
structured answer field the quoted-key regex (pattern 4) recovers the
field value; this yields the field value, rather than an earlier bare
letter of the prose, provided the prose does not itself match one of
the three higher-priority key-colon patterns (or an earlier position of
pattern 4).  The concrete conjuncts show a bare letter "b" in prose
losing against the field value "a" even though the character scan would
have returned "b". -/
theorem claim2_precedence :
    (∀ (s : String) (data : Json) (a : String) (jopt : Option Json),
      s ≠ "" → pyStartsWith s "Error:" = false →
      jsonLoads (cleanResponse s) = Except.ok data →
      pyFindKey data answerKeys = Except.ok (some (Json.str a)) →
      pyFindKey data justificationKeys = Except.ok jopt →
      a ≠ "" →
      parseResponse s = Except.ok (normalizeAnswer a, jopt.getD (Json.str "")))
    ∧ (∀ (s e : String) (c : Char),
      s ≠ "" → pyStartsWith s "Error:" = false →
      jsonLoads (cleanResponse s) = Except.error e →
      findFirstPattern (pyLower s).toList = some c →
      ∃ j, parseResponse s = Except.ok (String.singleton c, Json.str j))
    ∧ parseResponse "Primero pense b. \x7b\"answer\": \"a\"\x7d" = Except.ok ("a", Json.str "")
    ∧ List.find? isAbcd (pyLower "Primero pense b. \x7b\"answer\": \"a\"\x7d").toList = some 'b' := by
  refine ⟨parseResponse_structured, ?_, rfl, rfl⟩
  intro s e c hne herr hjson hpat
  obtain ⟨j, hj⟩ := textSearch_pattern s c hpat
  exact ⟨j, by rw [parseResponse_textfallback s e hne herr hjson, hj]⟩

/-- C2 witness: the structured-precedence conjunct of `claim2_precedence`
applied at the raw text consisting of the JSON object mapping answer to
"d". -/
theorem claim2_witness :
    parseResponse "\x7b\"answer\": \"d\"\x7d" = Except.ok ("d", Json.str "") :=
  claim2_precedence.1 "\x7b\"answer\": \"d\"\x7d"
    (Json.obj [("answer", Json.str "d")]) "d" none
    (by decide) rfl rfl rfl rfl (by decide)

/-! ## Claim C5 -/

/-- C5: for every question whose correct answer is a canonical letter and
every decision reply the extractor can parse, `is_correct` is the
case-insensitive equality of the parsed answer against the correct
answer, and it is false whenever the parsed answer is empty (the
correct answer, drawn from the canonical alphabet, is never empty); in
particular a decision backend returning the JSON object Respuesta "c"
or Respuesta "C" is correct for correct answer "c", and unparseable
text is incorrect. -/
theorem claim5_decision_correctness :
    (∀ (raw parsed : String) (j : Json) (correct : String),
      parseResponse raw = Except.ok (parsed, j) →
      correct ∈ (["a", "b", "c", "d", "A", "B", "C", "D"] : List String) →
      processIsCorrect parsed correct = (pyLower parsed == pyLower correct)
      ∧ (parsed = "" → processIsCorrect parsed correct = false))
    ∧ parseResponse "\x7b\"Respuesta\":\"c\"\x7d" = Except.ok ("c", Json.str "")
    ∧ processIsCorrect "c" "c" = true
    ∧ parseResponse "\x7b\"Respuesta\":\"C\"\x7d" = Except.ok ("c", Json.str "")
    ∧ processIsCorrect "c" "C" = true
    ∧ parseResponse "zzz" = Except.ok ("", Json.str "")
    ∧ processIsCorrect "" "c" = false := by
  refine ⟨?_, rfl, rfl, rfl, rfl, rfl, rfl⟩
  intro raw parsed j correct _hparse hmem
  fin_cases hmem <;>
    exact ⟨rfl, fun hp => by subst hp; rfl⟩

/-- C5 witness: the general conjunct of `claim5_decision_correctness`
applied at the decision raw text consisting of the JSON object mapping
Respuesta to "C" and the correct answer "c". -/
theorem claim5_witness :
    processIsCorrect "c" "c" = (pyLower "c" == pyLower "c")
    ∧ ("c" = "" → processIsCorrect "c" "c" = false) :=
  claim5_decision_correctness.1 "\x7b\"Respuesta\":\"C\"\x7d" "c" (Json.str "") "c"
    rfl (by decide)

/-! ## Claim C3 -/

/-- C3 counterexample: the claim quantifies over every configured advisor
mapping, but for the empty mapping `_query_advisors_parallel` creates
`ThreadPoolExecutor(max_workers=0)` (orchestrator.py line 189), which
raises `ValueError` instead of returning a (trivially complete) empty
reply mapping. -/
theorem claim3_counterexample :
    queryAdvisorsParallel [] [] (fun _ => Except.ok sampleReply)
      = Except.error "ValueError: max_workers must be greater than 0" :=
  rfl

/-- C3 (amended): for every non-empty configured advisor list, every
completion order of the submitted futures, and every mixture of task
successes and failures, the fan-out returns a reply list with exactly
one entry per configured advisor — its name multiset (hence its key
set, and its length) equals the configured advisor set; a failing
advisor contributes the fixed error entry (failed, empty parsed answer,
error text in the raw text) and a succeeding advisor contributes its
own reply, so one advisor's failure never aborts or drops any other
entry.  Entry order is completion order and is not program-determined. -/
theorem claim3_fanout_isolation :
    (∀ (advisors order : List String)
        (task : String → Except String AdvisorReply),
      advisors ≠ [] → order.Perm advisors →
      ∃ entries, queryAdvisorsParallel advisors order task = Except.ok entries
        ∧ (entries.map Prod.fst).Perm advisors
        ∧ (∀ name, name ∈ entries.map Prod.fst ↔ name ∈ advisors)
        ∧ entries.length = advisors.length
        ∧ (∀ name e, name ∈ advisors → task name = Except.error e →
            (name, errorReply e) ∈ entries)
        ∧ (∀ name r, name ∈ advisors → task name = Except.ok r →
            (name, r) ∈ entries))
    ∧ (∀ e, (errorReply e).error = true ∧ (errorReply e).parsed_answer = ""
        ∧ (errorReply e).raw_response = "Error: " ++ e) := by
  constructor
  · intro advisors order task hne hperm
    have hfst : (order.map (fun name =>
        (name, match task name with
               | Except.ok r => r
               | Except.error e => errorReply e))).map Prod.fst = order := by
      rw [List.map_map]
      exact List.map_id order
    refine ⟨order.map (fun name =>
        (name, match task name with
               | Except.ok r => r
               | Except.error e => errorReply e)), ?_, ?_, ?_, ?_, ?_, ?_⟩
    · unfold queryAdvisorsParallel
      rw [if_neg (by simp [List.isEmpty_iff, hne])]
    · rw [hfst]
      exact hperm
    · intro name
      rw [hfst]
      exact hperm.mem_iff
    · rw [List.length_map]
      exact hperm.length_eq
    · intro name e hmem htask
      have hin := List.mem_map_of_mem (fun name =>
        (name, match task name with
               | Except.ok r => r
               | Except.error e => errorReply e))
        (hperm.mem_iff.mpr hmem)
      simpa [htask] using hin
    · intro name r hmem htask
      have hin := List.mem_map_of_mem (fun name =>
        (name, match task name with
               | Except.ok r => r
               | Except.error e => errorReply e))
        (hperm.mem_iff.mpr hmem)
      simpa [htask] using hin
  · intro e
    exact ⟨rfl, rfl, rfl⟩

/-- C3 witness: the fan-out conjunct of `claim3_fanout_isolation` applied
to the three configured advisors, completing in the order deepseek,
grok, claude, with the grok task raising: the result is a complete
three-entry list whose names are a permutation of the configured
advisors, the grok entry is the error entry, and the other two entries
are intact. -/
theorem claim3_witness :
    queryAdvisorsParallel ["claude", "grok", "deepseek"]
      ["deepseek", "grok", "claude"] claim3Task = Except.ok claim3Entries
    ∧ (claim3Entries.map Prod.fst).Perm ["claude", "grok", "deepseek"]
    ∧ claim3Entries.length = 3
    ∧ ("grok", errorReply "timeout") ∈ claim3Entries
    ∧ ("claude", sampleReply) ∈ claim3Entries := by
  obtain ⟨entries, h1, h2, _h3, h4, h5, h6⟩ :=
    claim3_fanout_isolation.1 ["claude", "grok", "deepseek"]
      ["deepseek", "grok", "claude"] claim3Task (by decide) (by decide)
  have he : entries = claim3Entries := by
    have hok : (Except.ok entries : Except String (List (String × AdvisorReply)))
        = Except.ok claim3Entries := by
      rw [← h1]; rfl
    exact Except.ok.inj hok
  subst he
  exact ⟨h1, h2, h4, h5 "grok" "timeout" (by decide) rfl,
    h6 "claude" sampleReply (by decide) rfl⟩

/-! ## Claim C6 -/

set_option maxRecDepth 8000 in
/-- C6 counterexample: the claim states that a failed advisor is
represented in the synthesis prompt by the fixed placeholder string.
For a reply mapping whose claude entry failed (raw text
"Error: timeout"), the prompt embeds that error text and the placeholder
"Error al obtener respuesta" does not occur in the prompt at all: line
226 of orchestrator.py reads the entry's raw_response whenever the entry
exists, failed or not. -/
theorem claim6_counterexample :
    (errorReply "timeout").error = true
    ∧ strContains (queryDecisionPrompt decisionTemplateModel "Q" failedClaudeReplies)
        decisionPlaceholder = false
    ∧ strContains (queryDecisionPrompt decisionTemplateModel "Q" failedClaudeReplies)
        "Error: timeout" = true :=
  ⟨rfl, rfl, rfl⟩

set_option maxRecDepth 8000 in
/-- C6 (amended): the prompt construction reads exactly the three fixed
advisor positions claude, grok, deepseek, in that stable order: an
advisor missing from the reply mapping contributes the fixed placeholder
"Error al obtener respuesta" and is never omitted; a present advisor
(failed or not) contributes its own raw text; the prompt depends only on
those three lookups; and with the spec-modelled template every present
advisor's raw text is embedded in the prompt. -/
theorem claim6_decision_prompt :
    (∀ (replies : List (String × AdvisorReply)) (name : String),
      lookupReply replies name = none →
      advisorRawOrPlaceholder replies name = decisionPlaceholder)
    ∧ (∀ (replies : List (String × AdvisorReply)) (name : String) (r : AdvisorReply),
      lookupReply replies name = some r →
      advisorRawOrPlaceholder replies name = r.raw_response)
    ∧ (∀ (t q : String) (replies replies2 : List (String × AdvisorReply)),
      lookupReply replies "claude" = lookupReply replies2 "claude" →
      lookupReply replies "grok" = lookupReply replies2 "grok" →
      lookupReply replies "deepseek" = lookupReply replies2 "deepseek" →
      queryDecisionPrompt t q replies = queryDecisionPrompt t q replies2)
    ∧ strContains (queryDecisionPrompt decisionTemplateModel "Q" presentReplies)
        "RespClaude" = true
    ∧ strContains (queryDecisionPrompt decisionTemplateModel "Q" presentReplies)
        "RespGrok" = true
    ∧ strContains (queryDecisionPrompt decisionTemplateModel "Q" presentReplies)
        "RespDeepSeek" = true
    ∧ strContains (queryDecisionPrompt decisionTemplateModel "Q" missingDeepReplies)
        decisionPlaceholder = true := by
  refine ⟨?_, ?_, ?_, rfl, rfl, rfl, rfl⟩
  · intro replies name h
    unfold advisorRawOrPlaceholder
    rw [h]
  · intro replies name r h
    unfold advisorRawOrPlaceholder
    rw [h]
  · intro t q replies replies2 h1 h2 h3
    unfold queryDecisionPrompt advisorRawOrPlaceholder
    rw [h1, h2, h3]

/-- C6 witness: the placeholder conjunct of `claim6_decision_prompt`
applied to the mapping with deepseek missing, and the raw-text conjunct
applied to the present claude entry. -/
theorem claim6_witness :
    advisorRawOrPlaceholder missingDeepReplies "deepseek" = decisionPlaceholder
    ∧ advisorRawOrPlaceholder presentReplies "claude" = (mkReply "RespClaude").raw_response :=
  ⟨claim6_decision_prompt.1 missingDeepReplies "deepseek" rfl,
   claim6_decision_prompt.2.1 presentReplies "claude" (mkReply "RespClaude") rfl⟩

/-! ## Claim C8 -/

/-- C8 counterexample: the claim states that when sample_size is given
the run first truncates to the first sample_size questions.  The code
guards the truncation with Python truthiness
(`if sample_size and sample_size < len(df)`), so the given value 0
disables sampling entirely: with two questions and sample_size 0 the
selection keeps both questions, while the claim demands the first 0
questions, i.e. none (second conjunct). -/
theorem claim8_counterexample :
    runSelect [qn 1, qn 2] (some 0) none = [qn 1, qn 2]
    ∧ ([qn 1, qn 2] : List Question).take 0 = [] :=
  ⟨rfl, rfl⟩

/-- Helper: for a positive sample size the truncation block is Python
slicing to the first sample_size questions (a no-op when the bound is
at least the length, exactly as the guard `sample_size < len(df)`
skips). -/
theorem sampleStage_pos (qs : List Question) (ss : Int) (hss : 0 < ss) :
    sampleStage qs (some ss) = qs.take ss.toNat := by
  simp only [sampleStage]
  by_cases h : ss < (qs.length : Int)
  · rw [if_pos ⟨hss.ne', h⟩]
    unfold pySliceTo
    rw [if_pos hss.le]
  · rw [if_neg (by rintro ⟨_, hlt⟩; exact h hlt)]
    have hlen : qs.length ≤ ss.toNat := by omega
    rw [List.take_of_length_le hlen]

/-- C8 (amended): for a positive sample_size the selection first
truncates to the first sample_size questions and only then keeps
exactly the questions whose identity is at least resume_from
(inclusive); sample_size 0 is falsy in Python and disables sampling.
Identities 1..5 with resume_from 3 yield exactly 3,4,5, and 10
questions with sample_size 3 yield exactly the first 3 in original
order. -/
theorem claim8_run_selection :
    (∀ (qs : List Question) (ss r : Int), 0 < ss →
      runSelect qs (some ss) (some r)
        = (qs.take ss.toNat).filter (fun q => r ≤ q.id))
    ∧ (∀ (qs : List Question) (ss : Int), 0 < ss →
      runSelect qs (some ss) none = qs.take ss.toNat)
    ∧ runSelect [qn 1, qn 2, qn 3, qn 4, qn 5] none (some 3)
        = [qn 3, qn 4, qn 5]
    ∧ runSelect [qn 0, qn 1, qn 2, qn 3, qn 4, qn 5, qn 6, qn 7, qn 8, qn 9]
        (some 3) none = [qn 0, qn 1, qn 2]
    ∧ runSelect [qn 1, qn 2] (some 0) none = [qn 1, qn 2] := by
  refine ⟨?_, ?_, rfl, rfl, rfl⟩
  · intro qs ss r hss
    unfold runSelect
    rw [sampleStage_pos qs ss hss]
    rfl
  · intro qs ss hss
    unfold runSelect
    rw [sampleStage_pos qs ss hss]
    rfl

/-- C8 witness: the truncate-then-filter conjunct of
`claim8_run_selection` applied to identities 1..5 with sample_size 3 and
resume_from 3: only question 3 survives (truncation happens first). -/
theorem claim8_witness :
    runSelect [qn 1, qn 2, qn 3, qn 4, qn 5] (some 3) (some 3) = [qn 3] :=
  claim8_run_selection.1 [qn 1, qn 2, qn 3, qn 4, qn 5] 3 3 (by decide)

/-! ## Consensus helper lemmas -/

theorem pyLower_eq_empty_iff (s : String) : pyLower s = "" ↔ s = "" := by
  cases s with
  | mk data =>
    cases data with
    | nil => simp [pyLower]
    | cons c cs =>
      constructor
      · intro h
        exact absurd (congrArg String.data h) (by simp [pyLower])
      · intro h
        exact absurd (congrArg String.data h) (by simp)

/-- The highest multiplicity among three values, by cases on which of
them coincide. -/
theorem maxAnswerCount_three (p q r : String) :
    maxAnswerCount [p, q, r] =
      if p = q ∧ q = r then 3
      else if p = q ∨ q = r ∨ p = r then 2
      else 1 := by
  by_cases h1 : p = q <;> by_cases h2 : q = r <;> by_cases h3 : p = r
  · subst h1; subst h2
    simp [maxAnswerCount, List.count_cons, List.count_nil]
  · exact absurd (h1.trans h2) h3
  · exact absurd (h1.symm.trans h3) h2
  · subst h1
    simp [maxAnswerCount, List.count_cons, List.count_nil, h2, h3,
      Ne.symm h2, Ne.symm h3]
  · exact absurd (h3.trans h2.symm) h1
  · subst h2
    simp [maxAnswerCount, List.count_cons, List.count_nil, h1, h3,
      Ne.symm h1, Ne.symm h3]
  · subst h3
    simp [maxAnswerCount, List.count_cons, List.count_nil, h1, h2,
      Ne.symm h1, Ne.symm h2]
  · simp [maxAnswerCount, List.count_cons, List.count_nil, h1, h2, h3,
      Ne.symm h1, Ne.symm h2, Ne.symm h3]

/-! ## Claim C4 -/

/-- C4 counterexample: the claim states, for every configured advisor
count N, that the full-agreement bucket holds exactly when all N
advisors agree.  The code compares the top multiplicity against the
literals 3 and 2 (logger.py lines 196-201): with four advisors all
answering "a" the multiplicity is 4, so the result falls through both
tests into the no-agreement bucket even though all N = 4 advisors
agree. -/
theorem claim4_counterexample :
    analyzeConsensusLevel ["a", "a", "a", "a"] = Except.ok consensusNoneLabel
    ∧ consensusNoneLabel ≠ consensusFullLabel :=
  ⟨rfl, by decide⟩

/-- Shared characterization of the per-result consensus classification
on a list of exactly three answers. -/
theorem consensusLevel_three (x y z : String) :
    (analyzeConsensusLevel [x, y, z] = Except.ok consensusFullLabel
      ↔ (pyLower x = pyLower y ∧ pyLower y = pyLower z))
    ∧ (analyzeConsensusLevel [x, y, z] = Except.ok consensusPartLabel
      ↔ ¬(pyLower x = pyLower y ∧ pyLower y = pyLower z)
        ∧ (pyLower x = pyLower y ∨ pyLower y = pyLower z ∨ pyLower x = pyLower z))
    ∧ (analyzeConsensusLevel [x, y, z] = Except.ok consensusNoneLabel
      ↔ (pyLower x ≠ pyLower y ∧ pyLower y ≠ pyLower z ∧ pyLower x ≠ pyLower z)) := by
  have hform : analyzeConsensusLevel [x, y, z]
      = Except.ok
          (if maxAnswerCount [pyLower x, pyLower y, pyLower z] = 3
           then consensusFullLabel
           else if maxAnswerCount [pyLower x, pyLower y, pyLower z] = 2
           then consensusPartLabel
           else consensusNoneLabel) := rfl
  rw [hform, maxAnswerCount_three]
  by_cases h1 : pyLower x = pyLower y <;>
    by_cases h2 : pyLower y = pyLower z <;>
    by_cases h3 : pyLower x = pyLower z <;>
    simp_all [consensusFullLabel, consensusPartLabel, consensusNoneLabel]

/-- C4 (amended): the consensus classification compares the highest
multiplicity of the lowercased advisor answers against the fixed
literals 3 and 2, which coincides with the claimed buckets exactly when
the advisor count is 3: for three advisors, full agreement holds iff
all three (lowercased) answers coincide, partial agreement iff exactly
two coincide, no agreement iff all three are pairwise distinct; the
concrete conjuncts check a,a,a; a,a,b; a,b,c. -/
theorem claim4_consensus_buckets :
    (∀ x y z : String,
      (analyzeConsensusLevel [x, y, z] = Except.ok consensusFullLabel
        ↔ (pyLower x = pyLower y ∧ pyLower y = pyLower z))
      ∧ (analyzeConsensusLevel [x, y, z] = Except.ok consensusPartLabel
        ↔ ¬(pyLower x = pyLower y ∧ pyLower y = pyLower z)
          ∧ (pyLower x = pyLower y ∨ pyLower y = pyLower z ∨ pyLower x = pyLower z))
      ∧ (analyzeConsensusLevel [x, y, z] = Except.ok consensusNoneLabel
        ↔ (pyLower x ≠ pyLower y ∧ pyLower y ≠ pyLower z ∧ pyLower x ≠ pyLower z)))
    ∧ analyzeConsensusLevel ["a", "a", "a"] = Except.ok consensusFullLabel
    ∧ analyzeConsensusLevel ["a", "a", "b"] = Except.ok consensusPartLabel
    ∧ analyzeConsensusLevel ["a", "b", "c"] = Except.ok consensusNoneLabel :=
  ⟨consensusLevel_three, rfl, rfl, rfl⟩

/-- C4 witness: the characterization conjunct of
`claim4_consensus_buckets` applied to the answers a, A, a: case folding
makes all three agree, so the bucket is full agreement. -/
theorem claim4_witness :
    analyzeConsensusLevel ["a", "A", "a"] = Except.ok consensusFullLabel :=
  ((claim4_consensus_buckets.1 "a" "A" "a").1).mpr ⟨rfl, rfl⟩

/-! ## Claim C10 -/

/-- C10: in the consensus analysis an empty parsed answer (from a failed
or unparseable advisor) is counted as an ordinary agreeing value: with
exactly two of three advisors parsing to the empty string the question
lands in the partial-agreement bucket, and with all three empty it
lands in the full-agreement bucket. -/
theorem claim10_empty_answer_consensus :
    (∀ x y z : String, [x, y, z].count "" = 2 →
      analyzeConsensusLevel [x, y, z] = Except.ok consensusPartLabel)
    ∧ analyzeConsensusLevel ["", "", ""] = Except.ok consensusFullLabel := by
  refine ⟨?_, rfl⟩
  intro x y z hcount
  by_cases hx : x = "" <;> by_cases hy : y = "" <;> by_cases hz : z = ""
  · simp [hx, hy, hz, List.count_cons] at hcount
  · subst hx; subst hy
    have hlz : pyLower z ≠ "" := fun hc => hz ((pyLower_eq_empty_iff z).mp hc)
    exact ((consensusLevel_three "" "" z).2.1).mpr
      ⟨fun h => hlz h.2.symm, Or.inl rfl⟩
  · subst hx; subst hz
    have hly : pyLower y ≠ "" := fun hc => hy ((pyLower_eq_empty_iff y).mp hc)
    exact ((consensusLevel_three "" y "").2.1).mpr
      ⟨fun h => hly h.1.symm, Or.inr (Or.inr rfl)⟩
  · simp [hx, hy, hz, List.count_cons] at hcount
  · subst hy; subst hz
    have hlx : pyLower x ≠ "" := fun hc => hx ((pyLower_eq_empty_iff x).mp hc)
    exact ((consensusLevel_three x "" "").2.1).mpr
      ⟨fun h => hlx h.1, Or.inr (Or.inl rfl)⟩
  · simp [hx, hy, hz, List.count_cons] at hcount
  · simp [hx, hy, hz, List.count_cons] at hcount
  · simp [hx, hy, hz, List.count_cons] at hcount

/-- C10 witness: the two-empty conjunct of
`claim10_empty_answer_consensus` applied to the answers "", "", "b". -/
theorem claim10_witness :
    analyzeConsensusLevel ["", "", "b"] = Except.ok consensusPartLabel :=
  claim10_empty_answer_consensus.1 "" "" "b" (by decide)
